import Mathlib

/-!
Shallow embedding of the geographic-coverage geometry model of
`src/spinneret/eml.py` (class `GeographicCoverage` and the module-level
helper `_load_conversion_factors`), together with theorems settling the
frozen claims about geometry classification, ring formatting, unit
conversion, altitude averaging and the two JSON emitters.

Modelling conventions:
* Python floats are modelled as exact rationals (`ℚ`); the decimal
  literals of the source become the corresponding rationals.
* A Python value that may be `None` is an `Option`.
* Code that can raise an uncaught exception is embedded in
  `Except PyError`; the two exception classes that can actually escape
  the embedded code are `ValueError` (from `float()` applied to a
  non-numeric string) and `IndexError` (from indexing a too-short list).
  Note that the `except TypeError` handlers around `float(x[0])` in the
  source never fire, because `float` applied to a `str` raises
  `ValueError`, not `TypeError`; the fallback branches that would keep
  the raw string tokens are dead code, so the embedded ring formatters
  have no string-passthrough branch.
* `filter(None, item)` in Python keeps the truthy elements of `item`:
  it removes `None` and also removes the float `0.0`.  This is embedded
  faithfully by `pyFilterTruthy`.
* The XML coverage node is modelled by the structure
  `GeographicCoverage` below: presence of the `datasetGPolygon` element
  and of the `boundingCoordinates` element are `Option`-valued fields
  whose payloads hold the texts/values the accessors can read.
-/

/-- Exception classes that can escape the embedded code. -/
inductive PyError where
  | valueError : PyError
  | indexError : PyError
deriving DecidableEq, Repr

instance {ε α : Type} [DecidableEq ε] [DecidableEq α] :
    DecidableEq (Except ε α) := fun a b =>
  match a, b with
  | Except.ok x, Except.ok y => decidable_of_iff (x = y) (by simp)
  | Except.error x, Except.error y => decidable_of_iff (x = y) (by simp)
  | Except.ok _, Except.error _ => isFalse (by simp)
  | Except.error _, Except.ok _ => isFalse (by simp)

/-- Split a character list at every separator character, keeping empty
pieces (the splitting discipline of Python `str.split` with an explicit
separator). -/
def splitKeep (p : Char → Bool) : List Char → List (List Char)
  | [] => [[]]
  | c :: cs =>
      let r := splitKeep p cs
      if p c then [] :: r
      else
        match r with
        | [] => [[c]]
        | t :: ts => (c :: t) :: ts

/-- Numeric value of a list of decimal digit characters (most significant
first), as read by Python `float`. -/
def digitsVal (cs : List Char) : ℕ :=
  cs.foldl (fun n c => 10 * n + (c.toNat - 48)) 0

/-- Lexical part of Python `float(s)` on a plain decimal literal: an
optional sign, then digits with an optional fractional part (at least
one digit overall).  Returns the sign and the integer/fraction digit
lists, or `none` exactly when Python `float` would raise `ValueError`.
(Exponent forms, `inf`/`nan` and underscore separators do not occur in
the inputs of interest and are treated as unparseable.) -/
def lexFloat (cs : List Char) : Option (Bool × List Char × List Char) :=
  let core : List Char → Option (List Char × List Char) := fun ds =>
    match splitKeep (fun c => c = '.') ds with
    | [ip] =>
        if ip ≠ [] ∧ ip.all Char.isDigit then some (ip, []) else none
    | [ip, fp] =>
        if (ip ≠ [] ∨ fp ≠ []) ∧ ip.all Char.isDigit ∧ fp.all Char.isDigit then
          some (ip, fp)
        else none
    | _ => none
  match cs with
  | '-' :: rest => (core rest).map (fun p => (true, p))
  | '+' :: rest => (core rest).map (fun p => (false, p))
  | rest => (core rest).map (fun p => (false, p))

/-- Rational denoted by a sign and integer/fraction digit lists. -/
def ratOfDigits (neg : Bool) (ip fp : List Char) : ℚ :=
  let mag : ℚ := (digitsVal ip : ℚ) + (digitsVal fp : ℚ) / (10 : ℚ) ^ fp.length
  if neg then -mag else mag

/-- Model of Python `float` on a character-list token: lex it, then take
the denoted rational. -/
def pyFloatChars (cs : List Char) : Option ℚ :=
  (lexFloat cs).map (fun t => ratOfDigits t.1 t.2.1 t.2.2)

/-- Python `s.split()`: split on whitespace, discarding empty tokens. -/
def pySplitWhitespace (s : String) : List (List Char) :=
  (splitKeep Char.isWhitespace s.data).filter (fun t => t ≠ [])

/-- Python `item.split(",")`: split at every comma, keeping empty
pieces. -/
def pySplitComma (cs : List Char) : List (List Char) :=
  splitKeep (fun c => c = ',') cs

/-- Python `list(filter(None, item))` on a list of optional floats: keep
the truthy elements, i.e. drop `None` and drop `0.0`. -/
def pyFilterTruthy (l : List (Option ℚ)) : List ℚ :=
  (l.filterMap id).filter (fun v => v ≠ 0)

/-- `_load_conversion_factors` (eml.py): the fixed table mapping unit
names to meters-multipliers. -/
def _load_conversion_factors : List (String × ℚ) :=
  [ ("meter", 1),
    ("decimeter", 1e-1),
    ("dekameter", 1e1),
    ("hectometer", 1e2),
    ("kilometer", 1e3),
    ("megameter", 1e6),
    ("Foot_US", 0.3048006),
    ("foot", 0.3048),
    ("Foot_Gold_Coast", 0.3047997),
    ("fathom", 1.8288),
    ("nauticalMile", 1852),
    ("yard", 0.9144),
    ("Yard_Indian", 0.914398530744440774),
    ("Link_Clarke", 0.2011661949),
    ("Yard_Sears", 0.91439841461602867),
    ("mile", 1609.344) ]

/-- Dictionary lookup in the conversion table (`conversion_factors.get`). -/
def conversionFactor (u : String) : Option ℚ :=
  _load_conversion_factors.lookup u

/-- `GeographicCoverage._convert_to_meters` (eml.py).  The source routes
absent values and unknown units through a `NaN` sentinel; the embedding
collapses that to `Option`: absent value stays absent, an absent or
unrecognized unit leaves the value unchanged, and a recognized unit
multiplies by its factor. -/
def _convert_to_meters (x : Option ℚ) (from_units : Option String) : Option ℚ :=
  match x with
  | none => none
  | some v =>
      match from_units with
      | none => some v
      | some u =>
          match conversionFactor u with
          | none => some v
          | some f => some (v * f)

/-- Payload of a `datasetGPolygon` element: the optional `gRing` texts of
its outer and exclusion rings (either may be absent, e.g. when the ring
is given as `gRingPoint` elements instead of a `gRing` string). -/
structure DatasetGPolygon where
  outerGRing : Option String
  exclusionGRing : Option String
deriving DecidableEq, Repr

/-- Payload of a `boundingCoordinates` element: the four optional
bounding coordinate values (absent when the child element is missing or
empty). -/
structure BoundingCoordinates where
  west : Option ℚ
  east : Option ℚ
  north : Option ℚ
  south : Option ℚ
deriving DecidableEq, Repr

/-- One `geographicCoverage` node, holding exactly the data the source's
accessors can read from it.  The altitude fields are found by a
tree-wide search in the source and are therefore kept at top level. -/
structure GeographicCoverage where
  datasetGPolygon : Option DatasetGPolygon
  boundingCoordinates : Option BoundingCoordinates
  altitudeMinimumRaw : Option ℚ
  altitudeMaximumRaw : Option ℚ
  altitudeUnits : Option String
deriving DecidableEq, Repr

namespace GeographicCoverage

/-- `west()`: the west bounding coordinate, absent when the
`boundingCoordinates` element or the child value is absent. -/
def west (c : GeographicCoverage) : Option ℚ :=
  c.boundingCoordinates.bind BoundingCoordinates.west

/-- `east()` accessor. -/
def east (c : GeographicCoverage) : Option ℚ :=
  c.boundingCoordinates.bind BoundingCoordinates.east

/-- `north()` accessor. -/
def north (c : GeographicCoverage) : Option ℚ :=
  c.boundingCoordinates.bind BoundingCoordinates.north

/-- `south()` accessor. -/
def south (c : GeographicCoverage) : Option ℚ :=
  c.boundingCoordinates.bind BoundingCoordinates.south

/-- `altitude_minimum(to_meters)`: the raw value, converted to meters via
`_convert_to_meters` when `to_meters` is true. -/
def altitude_minimum (c : GeographicCoverage) (to_meters : Bool) : Option ℚ :=
  if to_meters then _convert_to_meters c.altitudeMinimumRaw c.altitudeUnits
  else c.altitudeMinimumRaw

/-- `altitude_maximum(to_meters)` accessor. -/
def altitude_maximum (c : GeographicCoverage) (to_meters : Bool) : Option ℚ :=
  if to_meters then _convert_to_meters c.altitudeMaximumRaw c.altitudeUnits
  else c.altitudeMaximumRaw

/-- `outer_gring()`: the `datasetGPolygonOuterGRing/gRing` text. -/
def outer_gring (c : GeographicCoverage) : Option String :=
  c.datasetGPolygon.bind DatasetGPolygon.outerGRing

/-- `exclusion_gring()`: the `datasetGPolygonExclusionGRing/gRing` text. -/
def exclusion_gring (c : GeographicCoverage) : Option String :=
  c.datasetGPolygon.bind DatasetGPolygon.exclusionGRing

/-- `geom_type(schema)`: classify the coverage.  The polygon test is the
presence of the `datasetGPolygon` element; the point test compares the
optional bounds with Python `==` (absent equals absent). -/
def geom_type (c : GeographicCoverage) (schema : String) : Option String :=
  if c.datasetGPolygon.isSome then
    if schema = "eml" then some "polygon" else some "esriGeometryPolygon"
  else if c.boundingCoordinates.isSome then
    if c.west = c.east ∧ c.north = c.south then
      if schema = "eml" then some "point" else some "esriGeometryPoint"
    else
      if schema = "eml" then some "envelope" else some "esriGeometryEnvelope"
  else none

end GeographicCoverage

/-- One loop iteration of `_format_ring` in `_to_esri_polygon`: split a
token at commas and convert the first two pieces with `float`.  A
missing second piece raises `IndexError`; a non-numeric piece raises
`ValueError` (uncaught: the source's `except TypeError` does not match
it, so its string-fallback branch is unreachable). -/
def parseVertexEsri (item : List Char) : Except PyError (List ℚ) :=
  match pySplitComma item with
  | [] => Except.error PyError.indexError
  | x0 :: rest =>
      match pyFloatChars x0 with
      | none => Except.error PyError.valueError
      | some f0 =>
          match rest with
          | [] => Except.error PyError.indexError
          | x1 :: _ =>
              match pyFloatChars x1 with
              | none => Except.error PyError.valueError
              | some f1 => Except.ok [f0, f1]

/-- The vertex-building loop of the ESRI `_format_ring`: vertices are
appended left to right and the first exception aborts the loop. -/
def parseRingEsri : List (List Char) → Except PyError (List (List ℚ))
  | [] => Except.ok []
  | t :: ts =>
      match parseVertexEsri t with
      | Except.error e => Except.error e
      | Except.ok v =>
          match parseRingEsri ts with
          | Except.error e => Except.error e
          | Except.ok r => Except.ok (v :: r)

/-- Ring closure (`if ring[0] != ring[-1]: ring.append(ring[0])`).
Indexing an empty ring raises `IndexError`. -/
def closeRing {α : Type} [DecidableEq α] (ring : List α) :
    Except PyError (List α) :=
  match ring with
  | [] => Except.error PyError.indexError
  | a :: t =>
      if (a :: t).getLast (by simp) ≠ a then Except.ok ((a :: t) ++ [a])
      else Except.ok (a :: t)

/-- `_format_ring` of `_to_esri_polygon`: split the string on
whitespace, parse the vertices, then close the ring. -/
def formatRingEsri (gring : String) : Except PyError (List (List ℚ)) :=
  match parseRingEsri (pySplitWhitespace gring) with
  | Except.error e => Except.error e
  | Except.ok ring => closeRing ring

/-- One loop iteration of `_format_ring` in `_to_geojson_polygon`: like
the ESRI version but appending the averaged altitude `z` as an optional
third component. -/
def parseVertexGeo (z : Option ℚ) (item : List Char) :
    Except PyError (List (Option ℚ)) :=
  match pySplitComma item with
  | [] => Except.error PyError.indexError
  | x0 :: rest =>
      match pyFloatChars x0 with
      | none => Except.error PyError.valueError
      | some f0 =>
          match rest with
          | [] => Except.error PyError.indexError
          | x1 :: _ =>
              match pyFloatChars x1 with
              | none => Except.error PyError.valueError
              | some f1 => Except.ok [some f0, some f1, z]

/-- The vertex-building loop of the GeoJSON `_format_ring`. -/
def parseRingGeo (z : Option ℚ) : List (List Char) →
    Except PyError (List (List (Option ℚ)))
  | [] => Except.ok []
  | t :: ts =>
      match parseVertexGeo z t with
      | Except.error e => Except.error e
      | Except.ok v =>
          match parseRingGeo z ts with
          | Except.error e => Except.error e
          | Except.ok r => Except.ok (v :: r)

/-- `_format_ring` of `_to_geojson_polygon`: parse the vertices with the
averaged `z`, close the ring, then apply `filter(None, ...)` to every
vertex. -/
def formatRingGeo (z : Option ℚ) (gring : String) :
    Except PyError (List (List ℚ)) :=
  match parseRingGeo z (pySplitWhitespace gring) with
  | Except.error e => Except.error e
  | Except.ok ring =>
      match closeRing ring with
      | Except.error e => Except.error e
      | Except.ok ring2 => Except.ok (ring2.map pyFilterTruthy)

/-- ESRI envelope geometry object as emitted by `_to_esri_envelope`
(field order mirrors the emitted JSON keys; `wkid` embeds the
`spatialReference` member). -/
structure EsriEnvelope where
  xmin : Option ℚ
  ymin : Option ℚ
  xmax : Option ℚ
  ymax : Option ℚ
  zmin : Option ℚ
  zmax : Option ℚ
  wkid : ℕ
deriving DecidableEq, Repr

/-- ESRI polygon geometry object as emitted by `_to_esri_polygon`. -/
structure EsriPolygon where
  rings : List (List (List ℚ))
  wkid : ℕ
deriving DecidableEq, Repr

/-- The two ESRI geometry shapes `to_esri_geometry` can emit. -/
inductive EsriGeometry where
  | envelope : EsriEnvelope → EsriGeometry
  | polygon : EsriPolygon → EsriGeometry
deriving DecidableEq, Repr

/-- The two GeoJSON geometry shapes `to_geojson_geometry` can emit; the
coordinate tuples have variable arity after `filter(None, ...)`. -/
inductive GeoJsonGeometry where
  | point : List ℚ → GeoJsonGeometry
  | polygon : List (List (List ℚ)) → GeoJsonGeometry
deriving DecidableEq, Repr

namespace GeographicCoverage

/-- `_average_altitudes`: the returned value together with whether the
call issues the range-collapse warning.  Adding `None` raises
`TypeError`, which the source catches, yielding `None` before the
warning test is reached; the warning fires only when both converted
altitudes exist and differ. -/
def _average_altitudes (c : GeographicCoverage) : Option ℚ × Bool :=
  match c.altitude_minimum true, c.altitude_maximum true with
  | some amin, some amax => (some ((amin + amax) / 2), decide (amin ≠ amax))
  | _, _ => (none, false)

/-- `_to_esri_envelope`: the envelope built from the bounds and the
meter-converted altitudes. -/
def _to_esri_envelope (c : GeographicCoverage) : EsriEnvelope :=
  { xmin := c.west
    ymin := c.south
    xmax := c.east
    ymax := c.north
    zmin := c.altitude_minimum true
    zmax := c.altitude_maximum true
    wkid := 4326 }

/-- `_to_esri_polygon`: format the outer ring, append the formatted
exclusion ring when present; `None` when there is no outer ring text. -/
def _to_esri_polygon (c : GeographicCoverage) :
    Except PyError (Option EsriPolygon) :=
  match c.outer_gring with
  | none => Except.ok none
  | some g =>
      match formatRingEsri g with
      | Except.error e => Except.error e
      | Except.ok ring =>
          match c.exclusion_gring with
          | none => Except.ok (some { rings := [ring], wkid := 4326 })
          | some ex =>
              match formatRingEsri ex with
              | Except.error e => Except.error e
              | Except.ok ring2 =>
                  Except.ok (some { rings := [ring, ring2], wkid := 4326 })

/-- `to_esri_geometry`: dispatch on `geom_type()`. -/
def to_esri_geometry (c : GeographicCoverage) :
    Except PyError (Option EsriGeometry) :=
  if c.geom_type "eml" = some "polygon" then
    match c._to_esri_polygon with
    | Except.error e => Except.error e
    | Except.ok p => Except.ok (p.map EsriGeometry.polygon)
  else if c.geom_type "eml" = some "point" then
    Except.ok (some (EsriGeometry.envelope c._to_esri_envelope))
  else if c.geom_type "eml" = some "envelope" then
    Except.ok (some (EsriGeometry.envelope c._to_esri_envelope))
  else Except.ok none

/-- `_to_geojson_polygon`: an envelope becomes the fixed five-corner
ring with the averaged `z` and per-vertex `filter(None, ...)`; a polygon
formats its outer ring (the exclusion ring is not emitted); otherwise
`None`. -/
def _to_geojson_polygon (c : GeographicCoverage) :
    Except PyError (Option GeoJsonGeometry) :=
  if c.geom_type "eml" = some "envelope" then
    let z := (c._average_altitudes).1
    let coordinates : List (List (Option ℚ)) :=
      [ [c.west, c.south, z],
        [c.east, c.south, z],
        [c.east, c.north, z],
        [c.west, c.north, z],
        [c.west, c.south, z] ]
    Except.ok (some (GeoJsonGeometry.polygon [coordinates.map pyFilterTruthy]))
  else if c.geom_type "eml" = some "polygon" then
    match c.outer_gring with
    | none => Except.ok none
    | some g =>
        match formatRingGeo (c._average_altitudes).1 g with
        | Except.error e => Except.error e
        | Except.ok ring => Except.ok (some (GeoJsonGeometry.polygon [ring]))
  else Except.ok none

/-- `_to_geojson_point`: `[west, north, z]` with the falsy components
removed by `filter(None, ...)`; `None` when the coverage is not a
point. -/
def _to_geojson_point (c : GeographicCoverage) : Option GeoJsonGeometry :=
  if c.geom_type "eml" = some "point" then
    some (GeoJsonGeometry.point
      (pyFilterTruthy [c.west, c.north, (c._average_altitudes).1]))
  else none

/-- `to_geojson_geometry`: dispatch on `geom_type()`. -/
def to_geojson_geometry (c : GeographicCoverage) :
    Except PyError (Option GeoJsonGeometry) :=
  if c.geom_type "eml" = some "polygon" ∨ c.geom_type "eml" = some "envelope" then
    c._to_geojson_polygon
  else if c.geom_type "eml" = some "point" then
    Except.ok c._to_geojson_point
  else Except.ok none

end GeographicCoverage

/-- A coverage whose `datasetGPolygon` element is present but carries no
`gRing` text (EML also allows `gRingPoint` children), together with
present, non-degenerate bounds. -/
def covC1x : GeographicCoverage :=
  { datasetGPolygon := some { outerGRing := none, exclusionGRing := none }
    boundingCoordinates :=
      some { west := some 1, east := some 2, north := some 3, south := some 4 }
    altitudeMinimumRaw := none
    altitudeMaximumRaw := none
    altitudeUnits := none }

/-- A polygon coverage with an outer ring and no bounds. -/
def covC1w : GeographicCoverage :=
  { datasetGPolygon := some { outerGRing := some "0,0 1,1 0,1", exclusionGRing := none }
    boundingCoordinates := none
    altitudeMinimumRaw := none
    altitudeMaximumRaw := none
    altitudeUnits := none }

/-- A polygon coverage whose outer ring contains a non-numeric
coordinate token. -/
def covC2x : GeographicCoverage :=
  { datasetGPolygon := some { outerGRing := some "a,b 1,2", exclusionGRing := none }
    boundingCoordinates := none
    altitudeMinimumRaw := none
    altitudeMaximumRaw := none
    altitudeUnits := none }

/-- An envelope coverage whose west and south bounds are the float
`0.0`, with no altitude. -/
def covC3x : GeographicCoverage :=
  { datasetGPolygon := none
    boundingCoordinates :=
      some { west := some 0, east := some 1, north := some 1, south := some 0 }
    altitudeMinimumRaw := none
    altitudeMaximumRaw := none
    altitudeUnits := none }

/-- A coverage with both altitudes present (units absent) and differing. -/
def covC5w : GeographicCoverage :=
  { datasetGPolygon := none
    boundingCoordinates := none
    altitudeMinimumRaw := some (-15)
    altitudeMaximumRaw := some 0
    altitudeUnits := none }

/-- A degenerate (point) coverage whose west bound is the float `0.0`,
with no altitude. -/
def covC7x : GeographicCoverage :=
  { datasetGPolygon := none
    boundingCoordinates :=
      some { west := some 0, east := some 0, north := some 5, south := some 5 }
    altitudeMinimumRaw := none
    altitudeMaximumRaw := none
    altitudeUnits := none }

/-- A degenerate (point) coverage with nonzero bounds and no altitude. -/
def covC8w : GeographicCoverage :=
  { datasetGPolygon := none
    boundingCoordinates :=
      some { west := some 1, east := some 1, north := some 2, south := some 2 }
    altitudeMinimumRaw := none
    altitudeMaximumRaw := none
    altitudeUnits := none }

/-- A polygon coverage with both an outer and an exclusion ring. -/
def covC9w : GeographicCoverage :=
  { datasetGPolygon :=
      some { outerGRing := some "1,1 2,1 2,2 1,1", exclusionGRing := some "1,1 2,1 1,2" }
    boundingCoordinates :=
      some { west := some 0, east := some 1, north := some 1, south := some 0 }
    altitudeMinimumRaw := none
    altitudeMaximumRaw := none
    altitudeUnits := none }

/-- A coverage whose `boundingCoordinates` element is present with all
four coordinate values absent, but whose altitudes are present. -/
def covC10x : GeographicCoverage :=
  { datasetGPolygon := none
    boundingCoordinates :=
      some { west := none, east := none, north := none, south := none }
    altitudeMinimumRaw := some 5
    altitudeMaximumRaw := some 5
    altitudeUnits := none }

/-- A coverage whose `boundingCoordinates` element is present with all
four coordinate values absent and no altitudes. -/
def covC10w : GeographicCoverage :=
  { datasetGPolygon := none
    boundingCoordinates :=
      some { west := none, east := none, north := none, south := none }
    altitudeMinimumRaw := none
    altitudeMaximumRaw := none
    altitudeUnits := none }

open GeographicCoverage

/-- C1, counterexample: a coverage whose `datasetGPolygon` element is
present without any outer `gRing` text, alongside present,
non-degenerate bounds.  No polygon ring is present and the bounds are
present and non-degenerate, so the claim requires classification
`envelope`; the code classifies on the element and returns `polygon`. -/
theorem C1_counterexample :
    covC1x.outer_gring = none ∧
    covC1x.boundingCoordinates.isSome = true ∧
    ¬(covC1x.west = covC1x.east ∧ covC1x.north = covC1x.south) ∧
    covC1x.geom_type "eml" = some "polygon" ∧
    covC1x.geom_type "eml" ≠ some "envelope" := by
  refine ⟨rfl, rfl, by decide, by decide, by decide⟩

/-- C1 (amended): classification returns `polygon` whenever the
`datasetGPolygon` element is present — in particular whenever an outer
polygon ring is present — regardless of whether bounds are also
present; otherwise, if bounds are present, it returns `point` when
`west == east` and `north == south` and `envelope` for any other
present bounds; and it returns `None` when neither the polygon element
nor bounds are present. -/
theorem C1_geom_type_classification (c : GeographicCoverage) :
    (c.outer_gring.isSome = true → c.geom_type "eml" = some "polygon") ∧
    c.geom_type "eml" =
      (if c.datasetGPolygon.isSome then some "polygon"
       else if c.boundingCoordinates.isSome then
         if c.west = c.east ∧ c.north = c.south then some "point"
         else some "envelope"
       else none) := by
  constructor
  · intro h
    have hd : c.datasetGPolygon.isSome = true := by
      rcases hdp : c.datasetGPolygon with _ | d
      · rw [outer_gring, hdp] at h
        simp at h
      · rfl
    simp [geom_type, hd]
  · rcases hdp : c.datasetGPolygon with _ | d <;>
      simp [geom_type, hdp]

/-- C1, witness: a coverage with an outer ring is classified
`polygon`. -/
theorem C1_witness :
    covC1w.outer_gring.isSome = true ∧ covC1w.geom_type "eml" = some "polygon" :=
  ⟨rfl, (C1_geom_type_classification covC1w).1 rfl⟩

/-- C2: a non-numeric coordinate token makes ring formatting raise an
uncaught `ValueError` (Python `float` on a non-numeric `str` raises
`ValueError`, which the source's `except TypeError` does not catch), so
polygon emission fails instead of passing the original tokens
through. -/
theorem C2_nonnumeric_token_raises :
    formatRingEsri "a,b 1,2" = Except.error PyError.valueError ∧
    formatRingGeo none "a,b 1,2" = Except.error PyError.valueError ∧
    covC2x.to_esri_geometry = Except.error PyError.valueError ∧
    covC2x.to_geojson_geometry = Except.error PyError.valueError := by
  refine ⟨by decide, by decide, by decide, by decide⟩

/-- C3: the GeoJSON envelope emitter builds its vertices with
`filter(None, ...)`, which drops every falsy component — including the
float `0.0` — so a coverage with zero-valued west/south bounds does not
produce two-component vertices as the claim requires: the corner
`(west, south) = (0, 0)` is emitted as the empty tuple. -/
theorem C3_zero_coordinates_dropped :
    covC3x.geom_type "eml" = some "envelope" ∧
    covC3x.to_geojson_geometry =
      Except.ok (some (GeoJsonGeometry.polygon
        [[[], [1], [1, 1], [1], []]])) := by
  refine ⟨by decide, by decide⟩

/-- Analysis of `closeRing` on a successful result: the output starts
and ends with the same vertex, and it is the input unchanged when the
input was already closed, else the input with its first vertex
appended. -/
theorem closeRing_ok {α : Type} [DecidableEq α] (l r : List α)
    (h : closeRing l = Except.ok r) :
    r.head? = r.getLast? ∧
    ∀ a t, l = a :: t →
      (l.getLast? = some a → r = l) ∧ (l.getLast? ≠ some a → r = l ++ [a]) := by
  rcases l with _ | ⟨a, t⟩
  · simp [closeRing] at h
  · have hlast : (a :: t).getLast? = some ((a :: t).getLast (by simp)) :=
      List.getLast?_eq_getLast _ _
    rw [closeRing] at h
    split at h
    case isTrue hc =>
      injection h with h2
      subst h2
      refine ⟨?_, ?_⟩
      · rw [List.getLast?_concat]
        simp
      · intro b s hbs
        injection hbs with hb hs
        subst hb
        subst hs
        constructor
        · intro hl
          rw [hlast] at hl
          exact absurd (Option.some.inj hl) hc
        · intro _
          rfl
    case isFalse hc =>
      injection h with h2
      subst h2
      have heq : (a :: t).getLast? = some a := by
        rw [hlast, not_not.mp hc]
      refine ⟨by simp [heq], ?_⟩
      intro b s hbs
      injection hbs with hb hs
      subst hb
      subst hs
      exact ⟨fun _ => rfl, fun hl => absurd heq hl⟩

/-- C4: whenever a raw ring string formats successfully (in either the
ESRI or the GeoJSON formatter), the formatted ring's first and last
vertices are equal; when the parsed vertex list is already closed it is
returned unchanged (no vertex is appended), and otherwise a copy of the
first vertex is appended as the last element. -/
theorem C4_format_ring_closure (s : String) (z : Option ℚ)
    (re rg : List (List ℚ))
    (he : formatRingEsri s = Except.ok re)
    (hg : formatRingGeo z s = Except.ok rg) :
    (re.head? = re.getLast? ∧ rg.head? = rg.getLast?) ∧
    (∀ l a t, parseRingEsri (pySplitWhitespace s) = Except.ok l → l = a :: t →
      (l.getLast? = some a → re = l) ∧
      (l.getLast? ≠ some a → re = l ++ [a])) ∧
    (∀ l a t, parseRingGeo z (pySplitWhitespace s) = Except.ok l → l = a :: t →
      (l.getLast? = some a → rg = l.map pyFilterTruthy) ∧
      (l.getLast? ≠ some a → rg = (l ++ [a]).map pyFilterTruthy)) := by
  rcases hp : parseRingEsri (pySplitWhitespace s) with e | l
  · simp [formatRingEsri, hp] at he
  rcases hq : parseRingGeo z (pySplitWhitespace s) with e | lg
  · simp [formatRingGeo, hq] at hg
  rcases hcr : closeRing lg with e | r2
  · simp [formatRingGeo, hq, hcr] at hg
  simp only [formatRingEsri, hp] at he
  simp only [formatRingGeo, hq, hcr, Except.ok.injEq] at hg
  subst hg
  have hesri := closeRing_ok l re he
  have hgeo := closeRing_ok lg r2 hcr
  refine ⟨⟨hesri.1, ?_⟩, ?_, ?_⟩
  · rw [List.head?_map, List.getLast?_map, hgeo.1]
  · intro l2 a t hp2 hl2
    injection hp2 with hp3
    subst hp3
    exact hesri.2 a t hl2
  · intro l2 a t hq2 hl2
    injection hq2 with hq3
    subst hq3
    rcases hgeo.2 a t hl2 with ⟨h1, h2⟩
    constructor
    · intro hl
      rw [h1 hl]
    · intro hl
      rw [h2 hl]

/-- C4, witness: formatting the open ring `"1,1 2,1 2,2"` (with and
without an averaged altitude) yields a closed ring. -/
theorem C4_format_ring_closure_witness :
    ([[1, 1], [2, 1], [2, 2], [1, 1]] : List (List ℚ)).head? =
      ([[1, 1], [2, 1], [2, 2], [1, 1]] : List (List ℚ)).getLast? ∧
    ([[1, 1], [2, 1], [2, 2], [1, 1]] : List (List ℚ)).head? =
      ([[1, 1], [2, 1], [2, 2], [1, 1]] : List (List ℚ)).getLast? := by
  have h0 : digitsVal [] = 0 := by decide
  have h1 : digitsVal ['1'] = 1 := by decide
  have h2 : digitsVal ['2'] = 2 := by decide
  have he : formatRingEsri "1,1 2,1 2,2" =
      Except.ok [[1, 1], [2, 1], [2, 2], [1, 1]] := by
    simp +decide [formatRingEsri, parseRingEsri, parseVertexEsri, pySplitComma,
      pySplitWhitespace, splitKeep, pyFloatChars, lexFloat, ratOfDigits,
      closeRing, h0, h1, h2]
  have hg : formatRingGeo none "1,1 2,1 2,2" =
      Except.ok [[1, 1], [2, 1], [2, 2], [1, 1]] := by
    simp +decide [formatRingGeo, parseRingGeo, parseVertexGeo, pySplitComma,
      pySplitWhitespace, splitKeep, pyFloatChars, lexFloat, ratOfDigits,
      closeRing, pyFilterTruthy, h0, h1, h2]
  exact (C4_format_ring_closure "1,1 2,1 2,2" none _ _ he hg).1

/-- C5: `_average_altitudes` warns exactly when both meter-converted
altitudes are present and differ; with both present it returns their
arithmetic mean, and with either absent it returns `None` and does not
warn. -/
theorem C5_average_altitudes (c : GeographicCoverage) :
    ((c._average_altitudes).2 = true ↔
      ∃ amin amax, c.altitude_minimum true = some amin ∧
        c.altitude_maximum true = some amax ∧ amin ≠ amax) ∧
    (∀ amin amax, c.altitude_minimum true = some amin →
      c.altitude_maximum true = some amax →
      c._average_altitudes = (some ((amin + amax) / 2), decide (amin ≠ amax))) ∧
    ((c.altitude_minimum true = none ∨ c.altitude_maximum true = none) →
      c._average_altitudes = (none, false)) := by
  rcases hmin : c.altitude_minimum true with _ | amin <;>
    rcases hmax : c.altitude_maximum true with _ | amax <;>
      simp [GeographicCoverage._average_altitudes, hmin, hmax]

/-- C5, witness: altitudes `-15` and `0` (no unit) average to `-7.5`
with a warning. -/
theorem C5_average_altitudes_witness :
    covC5w.altitude_minimum true = some (-15) ∧
    covC5w.altitude_maximum true = some 0 ∧
    covC5w._average_altitudes = (some ((-15 + 0) / 2), decide ((-15 : ℚ) ≠ 0)) ∧
    covC5w._average_altitudes = (some (-7.5), true) := by
  have h := (C5_average_altitudes covC5w).2.1 (-15) 0 rfl rfl
  refine ⟨rfl, rfl, h, ?_⟩
  rw [h]
  norm_num

/-- C6: unit conversion returns absent for an absent value, passes the
value through unchanged when the unit is absent or unrecognized, and
otherwise multiplies by the table factor; the table has exactly 16
entries with `foot = 0.3048`, `nauticalMile = 1852`, and
`mile = 1609.344`. -/
theorem C6_convert_to_meters (x : Option ℚ) (u : Option String) :
    (x = none → _convert_to_meters x u = none) ∧
    (u = none → _convert_to_meters x u = x) ∧
    (∀ s, u = some s → conversionFactor s = none → _convert_to_meters x u = x) ∧
    (∀ s f v, u = some s → conversionFactor s = some f → x = some v →
      _convert_to_meters x u = some (v * f)) ∧
    _load_conversion_factors.length = 16 ∧
    conversionFactor "foot" = some (0.3048 : ℚ) ∧
    conversionFactor "nauticalMile" = some 1852 ∧
    conversionFactor "mile" = some (1609.344 : ℚ) := by
  refine ⟨fun hx => ?_, fun hu => ?_, fun s hu hcf => ?_,
    fun s f v hu hcf hx => ?_, rfl, rfl, rfl, rfl⟩
  · subst hx
    rfl
  · subst hu
    rcases x with _ | v <;> rfl
  · subst hu
    rcases x with _ | v
    · rfl
    · simp [_convert_to_meters, hcf]
  · subst hu
    subst hx
    simp [_convert_to_meters, hcf]

/-- C6, witness: two feet convert to `2 * 0.3048` meters. -/
theorem C6_convert_to_meters_witness :
    _convert_to_meters (some 2) (some "foot") = some (2 * 0.3048) :=
  (C6_convert_to_meters (some 2) (some "foot")).2.2.2.1 "foot" 0.3048 2 rfl rfl rfl

/-- C7: the GeoJSON point emitter passes `[west, north, z]` through
`filter(None, ...)`, which drops every falsy component — including the
float `0.0` — so a degenerate coverage at `west = east = 0` is emitted
with a single-component coordinates list `[north]`, not the claimed
`[west, north]`. -/
theorem C7_zero_point_coordinate_dropped :
    covC7x.geom_type "eml" = some "point" ∧
    covC7x.to_geojson_geometry =
      Except.ok (some (GeoJsonGeometry.point [5])) := by
  exact ⟨by decide, by decide⟩

/-- C8: a coverage classified `point` or `envelope` is emitted by the
ESRI emitter as the envelope built from its bounds and meter-converted
altitudes with `wkid 4326` (a degenerate point is emitted as an
envelope, never as an ESRI point geometry), and an unclassifiable
coverage produces absent output. -/
theorem C8_esri_envelope (c : GeographicCoverage) :
    ((c.geom_type "eml" = some "point" ∨ c.geom_type "eml" = some "envelope") →
      c.to_esri_geometry = Except.ok (some (EsriGeometry.envelope
        { xmin := c.west, ymin := c.south, xmax := c.east, ymax := c.north,
          zmin := c.altitude_minimum true, zmax := c.altitude_maximum true,
          wkid := 4326 }))) ∧
    (c.geom_type "eml" = none → c.to_esri_geometry = Except.ok none) := by
  constructor
  · rintro (h | h) <;>
      simp [GeographicCoverage.to_esri_geometry, h,
        GeographicCoverage._to_esri_envelope]
  · intro h
    simp [GeographicCoverage.to_esri_geometry, h]

/-- C8, witness: a degenerate point coverage is emitted as an ESRI
envelope with equal min and max on both axes. -/
theorem C8_esri_envelope_witness :
    covC8w.to_esri_geometry = Except.ok (some (EsriGeometry.envelope
      { xmin := covC8w.west, ymin := covC8w.south, xmax := covC8w.east,
        ymax := covC8w.north, zmin := covC8w.altitude_minimum true,
        zmax := covC8w.altitude_maximum true, wkid := 4326 })) :=
  (C8_esri_envelope covC8w).1 (Or.inl (by decide))

/-- Converting a present value never loses it: `_convert_to_meters`
maps `some v` to `some w` for some `w`. -/
theorem _convert_to_meters_isSome (v : ℚ) (u : Option String) :
    ∃ w, _convert_to_meters (some v) u = some w := by
  rcases u with _ | s
  · exact ⟨v, rfl⟩
  · rcases hcf : conversionFactor s with _ | f
    · exact ⟨v, by simp [_convert_to_meters, hcf]⟩
    · exact ⟨v * f, by simp [_convert_to_meters, hcf]⟩

/-- C9: for a polygon coverage whose outer and exclusion rings are both
present and format successfully, the ESRI output's rings list is
exactly the formatted outer ring followed by the formatted exclusion
ring (both without z values), while the GeoJSON output's coordinates
list holds only the formatted outer ring and never the exclusion
ring. -/
theorem C9_exclusion_ring_emission (c : GeographicCoverage) (og ex : String)
    (ro rx rg : List (List ℚ))
    (hog : c.outer_gring = some og) (hex : c.exclusion_gring = some ex)
    (hro : formatRingEsri og = Except.ok ro)
    (hrx : formatRingEsri ex = Except.ok rx)
    (hrg : formatRingGeo (c._average_altitudes).1 og = Except.ok rg) :
    c.to_esri_geometry = Except.ok (some (EsriGeometry.polygon
      { rings := [ro, rx], wkid := 4326 })) ∧
    c.to_geojson_geometry =
      Except.ok (some (GeoJsonGeometry.polygon [rg])) := by
  have hd : c.datasetGPolygon.isSome = true := by
    rcases hdp : c.datasetGPolygon with _ | d
    · rw [GeographicCoverage.outer_gring, hdp] at hog
      simp at hog
    · rfl
  have hgt : c.geom_type "eml" = some "polygon" := by
    simp [GeographicCoverage.geom_type, hd]
  constructor
  · simp [GeographicCoverage.to_esri_geometry, hgt,
      GeographicCoverage._to_esri_polygon, hog, hex, hro, hrx]
  · simp [GeographicCoverage.to_geojson_geometry, hgt,
      GeographicCoverage._to_geojson_polygon, hog, hrg]

/-- C9, witness: a polygon coverage with outer ring
`"1,1 2,1 2,2 1,1"` and exclusion ring `"1,1 2,1 1,2"`. -/
theorem C9_exclusion_ring_emission_witness :
    covC9w.to_esri_geometry = Except.ok (some (EsriGeometry.polygon
      { rings := [[[1, 1], [2, 1], [2, 2], [1, 1]],
                  [[1, 1], [2, 1], [1, 2], [1, 1]]], wkid := 4326 })) ∧
    covC9w.to_geojson_geometry = Except.ok (some (GeoJsonGeometry.polygon
      [[[1, 1], [2, 1], [2, 2], [1, 1]]])) := by
  have h0 : digitsVal [] = 0 := by decide
  have h1 : digitsVal ['1'] = 1 := by decide
  have h2 : digitsVal ['2'] = 2 := by decide
  have hro : formatRingEsri "1,1 2,1 2,2 1,1" =
      Except.ok [[1, 1], [2, 1], [2, 2], [1, 1]] := by
    simp +decide [formatRingEsri, parseRingEsri, parseVertexEsri, pySplitComma,
      pySplitWhitespace, splitKeep, pyFloatChars, lexFloat, ratOfDigits,
      closeRing, h0, h1, h2]
  have hrx : formatRingEsri "1,1 2,1 1,2" =
      Except.ok [[1, 1], [2, 1], [1, 2], [1, 1]] := by
    simp +decide [formatRingEsri, parseRingEsri, parseVertexEsri, pySplitComma,
      pySplitWhitespace, splitKeep, pyFloatChars, lexFloat, ratOfDigits,
      closeRing, h0, h1, h2]
  have hz : (covC9w._average_altitudes).1 = none := rfl
  have hrg : formatRingGeo (covC9w._average_altitudes).1 "1,1 2,1 2,2 1,1" =
      Except.ok [[1, 1], [2, 1], [2, 2], [1, 1]] := by
    rw [hz]
    simp +decide [formatRingGeo, parseRingGeo, parseVertexGeo, pySplitComma,
      pySplitWhitespace, splitKeep, pyFloatChars, lexFloat, ratOfDigits,
      closeRing, pyFilterTruthy, h0, h1, h2]
  exact C9_exclusion_ring_emission covC9w _ _ _ _ _ rfl rfl hro hrx hrg

/-- C10, counterexample: with the bounding-box element present, all four
coordinate values absent, and both altitudes present at `5` (no unit),
classification is still `point` (the first half of the claim), but the
GeoJSON point output is `coordinates [5.0]` — the averaged altitude —
not the claimed empty coordinates list. -/
theorem C10_counterexample :
    covC10x.geom_type "eml" = some "point" ∧
    covC10x.to_geojson_geometry =
      Except.ok (some (GeoJsonGeometry.point [5])) ∧
    covC10x.to_geojson_geometry ≠
      Except.ok (some (GeoJsonGeometry.point [])) := by
  have hgt : covC10x.geom_type "eml" = some "point" := by decide
  have hz : (covC10x._average_altitudes).1 = some ((5 + 5) / 2) := rfl
  have hout : covC10x.to_geojson_geometry =
      Except.ok (some (GeoJsonGeometry.point [5])) := by
    simp [GeographicCoverage.to_geojson_geometry, hgt,
      GeographicCoverage._to_geojson_point, hz, pyFilterTruthy,
      show covC10x.west = none from rfl, show covC10x.north = none from rfl]
  refine ⟨hgt, hout, ?_⟩
  rw [hout]
  simp

/-- C10 (amended): if the bounding-box element is present but all four
coordinate values are absent (and no polygon element is present),
classification compares absent to absent as equal and returns `point`
rather than `None` or `envelope`; and when additionally no altitude
average is available (e.g. an altitude bound is also absent), the
GeoJSON point output has an empty coordinates list. -/
theorem C10_empty_bounds_point (c : GeographicCoverage)
    (hp : c.datasetGPolygon = none)
    (hb : c.boundingCoordinates.isSome = true)
    (hw : c.west = none) (he : c.east = none)
    (hn : c.north = none) (hs : c.south = none)
    (hz : c.altitudeMinimumRaw = none ∨ c.altitudeMaximumRaw = none) :
    c.geom_type "eml" = some "point" ∧
    c.to_geojson_geometry =
      Except.ok (some (GeoJsonGeometry.point [])) := by
  have hgt : c.geom_type "eml" = some "point" := by
    simp [GeographicCoverage.geom_type, hp, hb, hw, he, hn, hs]
  have hza : (c._average_altitudes).1 = none := by
    rcases hz with h | h
    · have hmn : c.altitude_minimum true = none := by
        simp [GeographicCoverage.altitude_minimum, h, _convert_to_meters]
      simp [GeographicCoverage._average_altitudes, hmn]
    · have hmx : c.altitude_maximum true = none := by
        simp [GeographicCoverage.altitude_maximum, h, _convert_to_meters]
      rcases hm : c.altitudeMinimumRaw with _ | v
      · have hmn : c.altitude_minimum true = none := by
          simp [GeographicCoverage.altitude_minimum, hm, _convert_to_meters]
        simp [GeographicCoverage._average_altitudes, hmn]
      · have hmn : c.altitude_minimum true =
            _convert_to_meters (some v) c.altitudeUnits := by
          simp [GeographicCoverage.altitude_minimum, hm]
        rcases _convert_to_meters_isSome v c.altitudeUnits with ⟨w, hw2⟩
        simp [GeographicCoverage._average_altitudes, hmn, hw2, hmx]
  refine ⟨hgt, ?_⟩
  simp [GeographicCoverage.to_geojson_geometry, hgt,
    GeographicCoverage._to_geojson_point, hza, hw, hn, pyFilterTruthy]

/-- C10, witness: bounding box present, everything absent. -/
theorem C10_empty_bounds_point_witness :
    covC10w.geom_type "eml" = some "point" ∧
    covC10w.to_geojson_geometry =
      Except.ok (some (GeoJsonGeometry.point [])) :=
  C10_empty_bounds_point covC10w rfl rfl rfl rfl rfl rfl (Or.inl rfl)
